import Mathlib

/-!
# Ikarus Product Advisor: the recommendation conversation controller

A shallow embedding of `frontend/ikarus3d-helper-bot/src/App.jsx`.

* The React state of `RecommendationPage` (the four `useState` cells) is the
  record `State`; every event handler is a function on that record.
* `handleSubmit` is an `async` function with two `await`s (`fetch` and
  `response.json()`), none of which is followed by a state update before the
  other has settled.  It is split into the part that runs inside the submit
  event (`handleSubmitSync`) and the part that runs once the awaited values are
  known (`handleSubmitResume`); what the network answers is the argument
  `FetchOutcome`.
* A handler reads the constants of the render that created it, not the state
  cells: `prompt` and `isLoading` inside `handleSubmit` are those of the last
  render.  `handleSubmitSync` is the handler of a render of the very state it
  runs on; `handleSubmitFrom` takes the render's constants separately, and the
  transition system has a `render` event that refreshes them.
* Values that come out of `response.json()` are untyped: they are `JsValue`s.
  Numbers are IEEE-754 doubles, kept as their 64-bit pattern; the only numeric
  operations the source performs (`> 0`, truthiness) are decided on that pattern.
* Strings are Lean strings (sequences of Unicode scalar values).
-/

namespace AdvisorBot

/-! ## JavaScript values -/

/-- A JavaScript number, as the bit pattern of its IEEE-754 binary64 encoding
(sign bit 63, exponent bits 62..52, fraction bits 51..0). -/
structure JsNumber where
  bits : Nat
  deriving DecidableEq, Repr

/-- The exponent-all-ones, fraction-zero pattern: `+Infinity`. -/
def JsNumber.posInfBits : Nat := 0x7FF0000000000000

/-- The pattern with the sign bit masked off. -/
def JsNumber.magnitude (n : JsNumber) : Nat := (n.bits % 2 ^ 64) % 2 ^ 63

/-- The value is `NaN`: exponent all ones and a non-zero fraction. -/
def JsNumber.isNaN (n : JsNumber) : Bool := decide (JsNumber.posInfBits < n.magnitude)

/-- The value is `+0` or `-0`. -/
def JsNumber.isZero (n : JsNumber) : Bool := decide (n.magnitude = 0)

/-- The comparison `n > 0` of JavaScript: the sign bit is clear, the value is not zero and
it is not `NaN` (`+Infinity > 0` is true). -/
def JsNumber.gtZero (n : JsNumber) : Bool :=
  decide (0 < n.bits % 2 ^ 64) && decide (n.bits % 2 ^ 64 ≤ JsNumber.posInfBits)

/-- A JavaScript value of the kinds that `JSON.parse` produces, and `undefined`, which is
what reading a missing property gives.  An object is its list of own properties. -/
inductive JsValue where
  | undefined
  | null
  | bool (b : Bool)
  | number (n : JsNumber)
  | string (s : String)
  | array (elems : List JsValue)
  | object (fields : List (String × JsValue))

/-- What a thrown value carries: the message of the `Error`. -/
structure JsError where
  message : String
  deriving DecidableEq, Repr

/-- Own-property lookup in an object's property list. -/
def lookupField (k : String) : List (String × JsValue) → JsValue
  | [] => JsValue.undefined
  | (k', v) :: rest => if k' = k then v else lookupField k rest

/-- The member access `v.k` for a data property name `k` (none of the names the source
reads is a built-in of `Array`, `String`, `Number` or `Boolean`): a `TypeError` on
`undefined` and `null`, the own property on an object, `undefined` elsewhere. -/
def getProp (v : JsValue) (k : String) : Except JsError JsValue :=
  match v with
  | JsValue.undefined => Except.error ⟨"TypeError: Cannot read properties of undefined"⟩
  | JsValue.null => Except.error ⟨"TypeError: Cannot read properties of null"⟩
  | JsValue.object fields => Except.ok (lookupField k fields)
  | _ => Except.ok JsValue.undefined

/-- The coercion `ToBoolean`. -/
def truthy : JsValue → Bool
  | JsValue.undefined => false
  | JsValue.null => false
  | JsValue.bool b => b
  | JsValue.number n => !(n.isZero || n.isNaN)
  | JsValue.string s => decide (s ≠ "")
  | JsValue.array _ => true
  | JsValue.object _ => true

/-- The comparison `v === lit` against a string literal: true exactly for the string
primitive with the same characters. -/
def strictEqString (v : JsValue) (lit : String) : Bool :=
  match v with
  | JsValue.string s => decide (s = lit)
  | _ => false

/-- `Array.prototype.map` with a callback that may throw: elements are visited in order
and the first exception propagates. -/
def arrayMap {α β : Type} (f : α → Except JsError β) : List α → Except JsError (List β)
  | [] => Except.ok []
  | x :: xs =>
    match f x with
    | Except.error e => Except.error e
    | Except.ok y =>
      match arrayMap f xs with
      | Except.error e => Except.error e
      | Except.ok ys => Except.ok (y :: ys)

/-! ## `String.prototype.trim` -/

/-- The code points `trim` strips: ECMAScript `WhiteSpace` (TAB, VT, FF, ZWNBSP and the
Unicode category Zs) and `LineTerminator` (LF, CR, LS, PS). -/
def isTrimChar (c : Char) : Bool :=
  let n := c.toNat
  n = 0x09 || n = 0x0A || n = 0x0B || n = 0x0C || n = 0x0D || n = 0x20 || n = 0xA0 ||
  n = 0x1680 || (0x2000 ≤ n && n ≤ 0x200A) || n = 0x2028 || n = 0x2029 || n = 0x202F ||
  n = 0x205F || n = 0x3000 || n = 0xFEFF

/-- The list of characters with leading and trailing `isTrimChar` characters removed. -/
def trimChars (cs : List Char) : List Char :=
  ((cs.dropWhile isTrimChar).reverse.dropWhile isTrimChar).reverse

/-- The method `s.trim()`. -/
def trim (s : String) : String := String.mk (trimChars s.data)

/-! ## The conversation state -/

/-- A chat message, `{ type, content }`. -/
structure Message where
  type : String
  content : JsValue

/-- The `useState` cells of `RecommendationPage`. -/
structure State where
  prompt : String
  messages : List Message
  isLoading : Bool
  error : Option String

/-- The state after the first render: `useState('')`, `useState([])`, `useState(false)`,
`useState(null)`. -/
def initialState : State :=
  { prompt := "", messages := [], isLoading := false, error := none }

/-- The constant `API_URL` of `RecommendationPage`. -/
def API_URL : String := "http://localhost:8000/api/recommend"

/-- The arguments of the `fetch` call.  The body is the value handed to `JSON.stringify`. -/
structure Request where
  url : String
  method : String
  headers : List (String × String)
  body : JsValue

/-- A response as `handleSubmit` reads it: `status`, `statusText`, and what
`response.json()` settles to (a parsed value, or a rejection when the body is not JSON). -/
structure Response where
  status : Nat
  statusText : String
  json : Except JsError JsValue

/-- The getter `response.ok`: the status is in the range 200 to 299. -/
def Response.ok (r : Response) : Bool := decide (200 ≤ r.status) && decide (r.status ≤ 299)

/-- What `await fetch(...)` settles to: a rejection (the transport failed) or a response. -/
inductive FetchOutcome where
  | rejected (err : JsError)
  | responded (r : Response)

/-- The string literal of the `catch` block. -/
def errorText : String :=
  "Sorry, something went wrong. Please check if the backend is running and try again."

/-- The guard `!prompt.trim() || isLoading` of `handleSubmit`. -/
def submitRejected (s : State) : Bool := decide (trim s.prompt = "") || s.isLoading

/-- The part of `handleSubmit` that runs inside the submit event, up to the first `await`:
the next state and the request issued, if any.  The handler is the one created by a render
of `s` itself, so the `prompt` and `isLoading` it reads are those of `s`. -/
def handleSubmitSync (s : State) : State × Option Request :=
  if submitRejected s then (s, none)
  else
    let userMessage : Message := { type := "user", content := JsValue.string s.prompt }
    ({ prompt := "",
       messages := s.messages ++ [userMessage],
       isLoading := true,
       error := none },
     some { url := API_URL,
            method := "POST",
            headers := [("Content-Type", "application/json")],
            body := JsValue.object [("prompt", JsValue.string s.prompt)] })

/-- The body of the `try` block after `fetch` has settled: the parsed `data`, or the value
thrown. -/
def tryBlock (o : FetchOutcome) : Except JsError JsValue :=
  match o with
  | FetchOutcome.rejected err => Except.error err
  | FetchOutcome.responded r =>
    if !r.ok then
      Except.error ⟨"API Error: " ++ toString r.status ++ " " ++ r.statusText⟩
    else r.json

/-- The state after `handleSubmit` has resumed, and what it wrote with `console.error`. -/
structure Completion where
  state : State
  logged : List JsError

/-- The part of `handleSubmit` after the `await`s, applied to the state current at that
moment: the `try` tail or the `catch` block, then the `finally` block. -/
def handleSubmitResume (s : State) (o : FetchOutcome) : Completion :=
  match tryBlock o with
  | Except.ok data =>
    let aiMessage : Message := { type := "ai", content := data }
    { state := { s with messages := s.messages ++ [aiMessage], isLoading := false },
      logged := [] }
  | Except.error err =>
    let errorMessage : Message := { type := "error", content := JsValue.string errorText }
    { state := { s with error := some errorText,
                        messages := s.messages ++ [errorMessage],
                        isLoading := false },
      logged := [err] }

/-- One call of `handleSubmit` run to completion with nothing in between: the submit event,
then, when a request was issued, its outcome `o`. -/
def handleSubmit (s : State) (o : FetchOutcome) : State :=
  match handleSubmitSync s with
  | (s', none) => s'
  | (s', some _) => (handleSubmitResume s' o).state

/-- The request ends in the `catch` block before any body is read: `fetch` rejected (a
network failure) or the response's status is not 2xx. -/
def FetchOutcome.isFailure : FetchOutcome → Bool
  | FetchOutcome.rejected _ => true
  | FetchOutcome.responded r => !r.ok

/-! ## The controller as a transition system -/

/-- The constants `prompt` and `isLoading` that one render of `RecommendationPage` binds.
The `handleSubmit` created by that render reads these, whatever the state cells hold by
the time it is called. -/
structure Rendered where
  prompt : String
  isLoading : Bool

/-- The constants a render binds when the state cells hold `s`. -/
def State.rendered (s : State) : Rendered := { prompt := s.prompt, isLoading := s.isLoading }

/-- The synchronous part of the `handleSubmit` created by a render with constants `c`,
called when the state cells hold `live`.  The guard, the user message and the request body
read `c`; `setError`, `setIsLoading` and `setPrompt` overwrite their cells, and
`setMessages(prev => [...prev, userMessage])` appends to what the cell holds. -/
def handleSubmitFrom (c : Rendered) (live : State) : State × Option Request :=
  if decide (trim c.prompt = "") || c.isLoading then (live, none)
  else
    let userMessage : Message := { type := "user", content := JsValue.string c.prompt }
    ({ prompt := "",
       messages := live.messages ++ [userMessage],
       isLoading := true,
       error := none },
     some { url := API_URL,
            method := "POST",
            headers := [("Content-Type", "application/json")],
            body := JsValue.object [("prompt", JsValue.string c.prompt)] })

/-- The page: the state cells, the constants of the last render (the ones the mounted
handlers read), and the requests that were issued and have not settled yet.  The last
component is bookkeeping: the source keeps no such list. -/
structure System where
  ui : State
  view : Rendered
  inFlight : List Request

/-- The system after the first render. -/
def initialSystem : System :=
  { ui := initialState, view := initialState.rendered, inFlight := [] }

/-- What can happen to the page: the form is submitted, the input's `onChange` fires with
a new value, the `i`-th outstanding request settles with outcome `o`, or the component
renders again. -/
inductive Event where
  | submit
  | edit (value : String)
  | settle (i : Nat) (o : FetchOutcome)
  | render

/-- One transition; `none` when the event cannot happen (no `i`-th outstanding request).
A submit runs the handler of the last render.  The input is `disabled` while the rendered
`isLoading` is true, so the browser delivers fewer `edit` events than are allowed here. -/
def step (sys : System) : Event → Option System
  | Event.submit =>
    let r := handleSubmitFrom sys.view sys.ui
    some { ui := r.1, view := sys.view, inFlight := sys.inFlight ++ r.2.toList }
  | Event.edit value =>
    some { ui := { sys.ui with prompt := value }, view := sys.view, inFlight := sys.inFlight }
  | Event.settle i o =>
    if i < sys.inFlight.length then
      some { ui := (handleSubmitResume sys.ui o).state,
             view := sys.view,
             inFlight := sys.inFlight.eraseIdx i }
    else none
  | Event.render =>
    some { ui := sys.ui, view := sys.ui.rendered, inFlight := sys.inFlight }

/-- The system after a sequence of events, `none` when one of them cannot happen. -/
def run (sys : System) : List Event → Option System
  | [] => some sys
  | e :: es =>
    match step sys e with
    | none => none
    | some sys' => run sys' es

/-- Every submit in the sequence comes right after a render; `justRendered` tells whether
the event before the sequence was one. -/
def submitsFollowRender (justRendered : Bool) : List Event → Bool
  | [] => true
  | Event.submit :: rest => justRendered && submitsFollowRender false rest
  | Event.render :: rest => submitsFollowRender true rest
  | Event.edit _ :: rest => submitsFollowRender false rest
  | Event.settle _ _ :: rest => submitsFollowRender false rest

/-! ## Rendering -/

/-- The element `<RecommendationCard key={...} recommendation={...} />`. -/
structure CardElement where
  key : JsValue
  recommendation : JsValue

/-- What `ChatMessage` returns. -/
inductive ChatElement where
  | userBubble (text : JsValue)
  | errorBubble (text : JsValue)
  | cardList (cards : List CardElement)
  | nothing

/-- The callback of `message.content.map`: reads `rec.product.id` for the key. -/
def cardElementOf (rec : JsValue) : Except JsError CardElement :=
  match getProp rec "product" with
  | Except.error e => Except.error e
  | Except.ok product =>
    match getProp product "id" with
    | Except.error e => Except.error e
    | Except.ok id => Except.ok { key := id, recommendation := rec }

/-- The component `ChatMessage`.  Among the values `JsValue` describes only an array has a
callable `map`: reading `map` off `undefined` or `null` throws, and calling what any other
value has under that name throws as well. -/
def ChatMessage (message : Message) : Except JsError ChatElement :=
  if message.type = "user" then Except.ok (ChatElement.userBubble message.content)
  else if message.type = "error" then Except.ok (ChatElement.errorBubble message.content)
  else if message.type = "ai" then
    match message.content with
    | JsValue.array elems =>
      match arrayMap cardElementOf elems with
      | Except.error e => Except.error e
      | Except.ok cards => Except.ok (ChatElement.cardList cards)
    | JsValue.undefined => Except.error ⟨"TypeError: Cannot read properties of undefined"⟩
    | JsValue.null => Except.error ⟨"TypeError: Cannot read properties of null"⟩
    | _ => Except.error ⟨"TypeError: message.content.map is not a function"⟩
  else Except.ok ChatElement.nothing

/-- The value of `product.brand && <span>{product.brand} • </span>`: the brand itself when
it is falsy, the `span` around it otherwise. -/
inductive BrandSlot where
  | falsy (brand : JsValue)
  | span (brand : JsValue)

/-- The expressions `RecommendationCard` places in its markup. -/
structure CardView where
  imgSrc : JsValue
  imgAlt : JsValue
  title : JsValue
  brand : BrandSlot
  category : JsValue
  description : JsValue
  price : JsValue

/-- The expression `product.price === "nan" ? "Price not available" : product.price`. -/
def priceShown (price : JsValue) : JsValue :=
  if strictEqString price "nan" then JsValue.string "Price not available" else price

/-- The component `RecommendationCard`: destructures the recommendation, then reads the
product's properties in markup order. -/
def RecommendationCard (recommendation : JsValue) : Except JsError CardView :=
  match getProp recommendation "product", getProp recommendation "generated_description" with
  | Except.error e, _ => Except.error e
  | _, Except.error e => Except.error e
  | Except.ok product, Except.ok generated_description =>
    match getProp product "image_url", getProp product "title", getProp product "brand",
      getProp product "category", getProp product "price" with
    | Except.ok image_url, Except.ok title, Except.ok brand, Except.ok category,
      Except.ok price =>
      Except.ok
        { imgSrc := image_url,
          imgAlt := title,
          title := title,
          brand := if truthy brand then BrandSlot.span brand else BrandSlot.falsy brand,
          category := category,
          description := generated_description,
          price := priceShown price }
    | Except.error e, _, _, _, _ => Except.error e
    | _, Except.error e, _, _, _ => Except.error e
    | _, _, Except.error e, _, _ => Except.error e
    | _, _, _, Except.error e, _ => Except.error e
    | _, _, _, _, Except.error e => Except.error e

/-! ## Well-shaped recommendations -/

/-- A product's price as transmitted: a number or a string. -/
inductive Price where
  | num (n : JsNumber)
  | str (s : String)
  deriving DecidableEq

/-- The price as a `JsValue`. -/
def Price.toJs : Price → JsValue
  | Price.num n => JsValue.number n
  | Price.str s => JsValue.string s

/-- A product as the recommendation endpoint transmits it. -/
structure Product where
  id : String
  title : String
  brand : Option String
  category : String
  image_url : String
  price : Price

/-- One element of the recommendation endpoint's success body. -/
structure Recommendation where
  product : Product
  generated_description : String

/-- The object `JSON.parse` builds for a product; `brand` is present only when given. -/
def Product.toJs (p : Product) : JsValue :=
  JsValue.object
    ([("id", JsValue.string p.id), ("title", JsValue.string p.title)] ++
     (match p.brand with
      | none => []
      | some b => [("brand", JsValue.string b)]) ++
     [("category", JsValue.string p.category),
      ("image_url", JsValue.string p.image_url),
      ("price", p.price.toJs)])

/-- The object `JSON.parse` builds for a recommendation. -/
def Recommendation.toJs (r : Recommendation) : JsValue :=
  JsValue.object
    [("product", r.product.toJs),
     ("generated_description", JsValue.string r.generated_description)]

/-! ## The analytics page -/

/-- An element of `productsByBrand`. -/
structure BrandCount where
  brand : String
  product_count : JsNumber

/-- An element of `avgPriceByCategory`. -/
structure CategoryPrice where
  primary_category : String
  price : JsNumber

/-- An element of `materialDistribution`. -/
structure MaterialCount where
  material : String
  count : JsNumber

/-- The four summary values. -/
structure KeyMetrics where
  totalProducts : JsNumber
  uniqueBrands : JsNumber
  averagePrice : JsNumber
  uniqueCategories : JsNumber

/-- A valid analytics aggregate: the success body of the analytics endpoint. -/
structure AnalyticsData where
  keyMetrics : KeyMetrics
  productsByBrand : List BrandCount
  avgPriceByCategory : List CategoryPrice
  materialDistribution : List MaterialCount

/-- The call `xs.slice(0, stop)` for a non-negative `stop`. -/
def sliceFromStart {α : Type} (xs : List α) (stop : Nat) : List α := xs.take stop

/-- The constant `topBrandsData` of `AnalyticsPage`. -/
def topBrandsData (data : AnalyticsData) : List BrandCount :=
  sliceFromStart data.productsByBrand 10

/-- The constant `topCategoriesData` of `AnalyticsPage`. -/
def topCategoriesData (data : AnalyticsData) : List CategoryPrice :=
  sliceFromStart (data.avgPriceByCategory.filter (fun d => d.price.gtZero)) 10

/-- The `data` prop of the `Pie` under the title "Material Distribution (Top 10)". -/
def materialPieData (data : AnalyticsData) : List MaterialCount :=
  data.materialDistribution

/-! ## Predicates used to state the properties -/

/-- The message is a user entry. -/
def Message.isUser (m : Message) : Bool := decide (m.type = "user")

/-- The message is an error entry. -/
def Message.isError (m : Message) : Bool := decide (m.type = "error")

/-- The message is a result entry: an AI entry or an error entry. -/
def Message.isResult (m : Message) : Bool := decide (m.type = "ai") || m.isError

/-- The log is a sequence of (user entry, result entry) pairs, followed by one more user
entry exactly when `trailing` is true. -/
def pairedLog : List Message → Bool → Bool
  | [], trailing => !trailing
  | [u], trailing => u.isUser && trailing
  | u :: r :: rest, trailing => u.isUser && r.isResult && pairedLog rest trailing

/-- Every user entry holds a string whose trim is not empty. -/
def userTextsNonBlank (ms : List Message) : Prop :=
  ∀ m ∈ ms, m.isUser = true → ∃ t : String, m.content = JsValue.string t ∧ trim t ≠ ""

/-- The error banner agrees with the log: `error` is set exactly when nothing is loading
and the last entry is an error entry, and then it is that entry's text. -/
def errorMatchesLog (s : State) : Prop :=
  (s.error ≠ none ↔
    (s.isLoading = false ∧ ∃ m, s.messages.getLast? = some m ∧ m.isError = true)) ∧
  (∀ e, s.error = some e →
    ∃ m, s.messages.getLast? = some m ∧ m.isError = true ∧ m.content = JsValue.string e)

/-- The log made of the given (user entry, result entry) pairs, in order. -/
def logOfPairs : List (Message × Message) → List Message
  | [] => []
  | (u, r) :: rest => u :: r :: logOfPairs rest

/-- The facts that hold as long as every submit runs the handler of an up-to-date render:
the number of outstanding requests is one while loading and zero otherwise, the log is
paired, user texts are not blank, and the error banner agrees with the log. -/
structure Consistent (sys : System) : Prop where
  inFlight_count : sys.inFlight.length = if sys.ui.isLoading = true then 1 else 0
  paired : pairedLog sys.ui.messages sys.ui.isLoading = true
  texts : userTextsNonBlank sys.ui.messages
  banner : errorMatchesLog sys.ui

/-! ## Sample inputs -/

/-- The prompt "chair" is typed and rendered, then the form is submitted twice with no
render in between. -/
def doubleSubmit : List Event :=
  [Event.edit "chair", Event.render, Event.submit, Event.submit]

/-- After `doubleSubmit`, the first request fails and the second is answered with an empty
array of recommendations. -/
def doubleSubmitSettled : List Event :=
  doubleSubmit ++
    [Event.settle 0 (FetchOutcome.rejected ⟨"TypeError: Failed to fetch"⟩),
     Event.settle 0 (FetchOutcome.responded
       { status := 200, statusText := "OK", json := Except.ok (JsValue.array []) })]

/-- The recommendation of the scenario: an oak chair priced 129.99. -/
def oakChair : Recommendation :=
  { product :=
      { id := "p1", title := "Oak Chair", brand := none, category := "Seating",
        image_url := "u", price := Price.num ⟨0x40603FAE147AE148⟩ },
    generated_description := "..." }

/-- A recommendation whose price is the string "Price not available". -/
def unpricedLamp : Recommendation :=
  { product :=
      { id := "p2", title := "Lamp", brand := some "Lumen", category := "Lighting",
        image_url := "v", price := Price.str "Price not available" },
    generated_description := "A lamp." }

/-- An aggregate with eleven brands, eleven categories (the second with a negative average
price) and eleven materials; every count is 1.0 and every other price 12.0. -/
def elevenOfEach : AnalyticsData :=
  { keyMetrics :=
      { totalProducts := ⟨0x4028000000000000⟩, uniqueBrands := ⟨0x4028000000000000⟩,
        averagePrice := ⟨0x4028000000000000⟩, uniqueCategories := ⟨0x4028000000000000⟩ },
    productsByBrand :=
      ["Acme", "Bolt", "Cove", "Dune", "Elm", "Fjord", "Grove", "Haus", "Isle", "Juno",
       "Kite"].map fun b => { brand := b, product_count := ⟨0x3FF0000000000000⟩ },
    avgPriceByCategory :=
      [("Beds", 0x4028000000000000), ("Bins", 0xC014000000000000),
       ("Chairs", 0x4028000000000000), ("Desks", 0x4028000000000000),
       ("Lamps", 0x4028000000000000), ("Mats", 0x4028000000000000),
       ("Racks", 0x4028000000000000), ("Rugs", 0x4028000000000000),
       ("Sofas", 0x4028000000000000), ("Stools", 0x4028000000000000),
       ("Tables", 0x4028000000000000)].map
        fun c => { primary_category := c.1, price := ⟨c.2⟩ },
    materialDistribution :=
      ["Wood", "Metal", "Glass", "Plastic", "Fabric", "Leather", "Bamboo", "Rattan",
       "Marble", "Steel", "Foam"].map fun m => { material := m, count := ⟨0x3FF0000000000000⟩ } }

/-! # Theorems -/

/-! ## Facts about `trim` -/

theorem trimChars_eq_nil_iff (cs : List Char) :
    trimChars cs = [] ↔ ∀ c ∈ cs, isTrimChar c = true := by
  unfold trimChars
  rw [List.reverse_eq_nil_iff, List.dropWhile_eq_nil_iff]
  constructor
  · intro h
    have hnil : cs.dropWhile isTrimChar = [] := by
      by_contra hne
      have hhead := List.head_dropWhile_not isTrimChar cs hne
      have hmem : (cs.dropWhile isTrimChar).head hne ∈ (cs.dropWhile isTrimChar).reverse :=
        List.mem_reverse.mpr (List.head_mem hne)
      have := h _ hmem
      simp [this] at hhead
    exact List.dropWhile_eq_nil_iff.mp hnil
  · intro h c hc
    have hnil : cs.dropWhile isTrimChar = [] := List.dropWhile_eq_nil_iff.mpr h
    rw [hnil] at hc
    simp at hc

theorem trim_eq_empty_iff (p : String) :
    trim p = "" ↔ ∀ c ∈ p.data, isTrimChar c = true := by
  rw [← trimChars_eq_nil_iff]
  unfold trim
  constructor
  · intro h
    have := congrArg String.data h
    simpa using this
  · intro h
    rw [h]

/-! ## Facts about `handleSubmit` -/

theorem submitRejected_eq_true_iff (s : State) :
    submitRejected s = true ↔ (trim s.prompt = "" ∨ s.isLoading = true) := by
  simp [submitRejected]

theorem submitRejected_eq_false_iff (s : State) :
    submitRejected s = false ↔ (trim s.prompt ≠ "" ∧ s.isLoading = false) := by
  simp [submitRejected]

theorem handleSubmitSync_rejected (s : State) (h : submitRejected s = true) :
    handleSubmitSync s = (s, none) := by
  simp [handleSubmitSync, h]

theorem handleSubmitSync_accepted (s : State) (h : submitRejected s = false) :
    handleSubmitSync s =
      ({ prompt := "",
         messages := s.messages ++ [{ type := "user", content := JsValue.string s.prompt }],
         isLoading := true,
         error := none },
       some { url := API_URL,
              method := "POST",
              headers := [("Content-Type", "application/json")],
              body := JsValue.object [("prompt", JsValue.string s.prompt)] }) := by
  simp [handleSubmitSync, h]

theorem tryBlock_of_failure (o : FetchOutcome) (h : o.isFailure = true) :
    ∃ err, tryBlock o = Except.error err := by
  cases o with
  | rejected err => exact ⟨err, rfl⟩
  | responded r =>
    simp only [FetchOutcome.isFailure] at h
    refine ⟨⟨"API Error: " ++ toString r.status ++ " " ++ r.statusText⟩, ?_⟩
    simp [tryBlock, h]

theorem handleSubmitResume_of_error (s : State) (o : FetchOutcome) (err : JsError)
    (h : tryBlock o = Except.error err) :
    handleSubmitResume s o =
      { state := { s with error := some errorText,
                          messages := s.messages ++
                            [{ type := "error", content := JsValue.string errorText }],
                          isLoading := false },
        logged := [err] } := by
  simp [handleSubmitResume, h]

theorem handleSubmitResume_of_ok (s : State) (o : FetchOutcome) (data : JsValue)
    (h : tryBlock o = Except.ok data) :
    handleSubmitResume s o =
      { state := { s with messages := s.messages ++ [{ type := "ai", content := data }],
                          isLoading := false },
        logged := [] } := by
  simp [handleSubmitResume, h]

theorem handleSubmitResume_appends (s : State) (o : FetchOutcome) :
    ∃ m : Message, m.isResult = true ∧
      (handleSubmitResume s o).state.messages = s.messages ++ [m] ∧
      (handleSubmitResume s o).state.isLoading = false ∧
      (handleSubmitResume s o).state.prompt = s.prompt := by
  cases h : tryBlock o with
  | ok data =>
    rw [handleSubmitResume_of_ok s o data h]
    exact ⟨_, by simp [Message.isResult], rfl, rfl, rfl⟩
  | error err =>
    rw [handleSubmitResume_of_error s o err h]
    exact ⟨_, by decide, rfl, rfl, rfl⟩

theorem handleSubmit_accepted (s : State) (o : FetchOutcome) (h : submitRejected s = false) :
    handleSubmit s o =
      (handleSubmitResume
        { prompt := "",
          messages := s.messages ++ [{ type := "user", content := JsValue.string s.prompt }],
          isLoading := true,
          error := none } o).state := by
  simp [handleSubmit, handleSubmitSync_accepted s h]

/-- C1: from a state that is not loading and whose prompt has a non-empty trim, one
`handleSubmit` run to completion, whatever the request's outcome (success, non-2xx status,
network failure, JSON parse failure), leaves `isLoading` false and the log exactly two
entries longer: the user entry followed by one result entry. -/
theorem handleSubmit_grows_by_two (s : State) (o : FetchOutcome)
    (hload : s.isLoading = false) (hprompt : trim s.prompt ≠ "") :
    (handleSubmit s o).isLoading = false ∧
    (handleSubmit s o).messages.length = s.messages.length + 2 ∧
    ∃ r : Message, r.isResult = true ∧
      (handleSubmit s o).messages =
        s.messages ++ [{ type := "user", content := JsValue.string s.prompt }, r] := by
  have hacc : submitRejected s = false := (submitRejected_eq_false_iff s).mpr ⟨hprompt, hload⟩
  rw [handleSubmit_accepted s o hacc]
  obtain ⟨m, hm, hmsgs, hl, _⟩ := handleSubmitResume_appends
    { prompt := "",
      messages := s.messages ++ [{ type := "user", content := JsValue.string s.prompt }],
      isLoading := true,
      error := none } o
  refine ⟨hl, ?_, m, hm, ?_⟩
  · rw [hmsgs]
    simp
  · rw [hmsgs]
    simp

/-- C1 at the prompt "chair" from the initial log, with the transport failing. -/
theorem handleSubmit_grows_by_two_witness :
    (handleSubmit { prompt := "chair", messages := [], isLoading := false, error := none }
        (FetchOutcome.rejected ⟨"TypeError: Failed to fetch"⟩)).isLoading = false ∧
    (handleSubmit { prompt := "chair", messages := [], isLoading := false, error := none }
        (FetchOutcome.rejected ⟨"TypeError: Failed to fetch"⟩)).messages.length = 0 + 2 :=
  let h := handleSubmit_grows_by_two
    { prompt := "chair", messages := [], isLoading := false, error := none }
    (FetchOutcome.rejected ⟨"TypeError: Failed to fetch"⟩) rfl (by decide)
  ⟨h.1, h.2.1⟩

/-- C2: `handleSubmit` does nothing exactly when its guard fails.  When the trimmed prompt
is empty (the prompt is empty or all white space) or a request is loading, the state is
returned as it is and no request is issued; otherwise the state changes: a user entry is
appended and a request is issued. -/
theorem handleSubmit_noop_iff_guard (s : State) :
    ((trim s.prompt = "" ∨ s.isLoading = true) →
      handleSubmitSync s = (s, none) ∧ ∀ o, handleSubmit s o = s) ∧
    ((trim s.prompt ≠ "" ∧ s.isLoading = false) →
      (handleSubmitSync s).1 ≠ s ∧
      (handleSubmitSync s).1.messages =
        s.messages ++ [{ type := "user", content := JsValue.string s.prompt }] ∧
      (handleSubmitSync s).2.isSome = true) ∧
    (trim s.prompt = "" ↔ ∀ c ∈ s.prompt.data, isTrimChar c = true) := by
  refine ⟨?_, ?_, trim_eq_empty_iff s.prompt⟩
  · intro h
    have hrej := (submitRejected_eq_true_iff s).mpr h
    have hsync := handleSubmitSync_rejected s hrej
    refine ⟨hsync, ?_⟩
    intro o
    simp [handleSubmit, hsync]
  · intro h
    have hacc := (submitRejected_eq_false_iff s).mpr h
    rw [handleSubmitSync_accepted s hacc]
    refine ⟨?_, rfl, rfl⟩
    intro heq
    have hlen := congrArg (fun t : State => t.messages.length) heq
    simp at hlen

/-- C2 on a white-space prompt, on a loading state, and on an accepted prompt. -/
theorem handleSubmit_noop_iff_guard_witness :
    handleSubmitSync { prompt := " \t", messages := [], isLoading := false, error := none } =
      ({ prompt := " \t", messages := [], isLoading := false, error := none }, none) ∧
    handleSubmitSync { prompt := "desk", messages := [], isLoading := true, error := none } =
      ({ prompt := "desk", messages := [], isLoading := true, error := none }, none) ∧
    (handleSubmitSync
      { prompt := "desk", messages := [], isLoading := false, error := none }).2.isSome = true :=
  ⟨((handleSubmit_noop_iff_guard
      { prompt := " \t", messages := [], isLoading := false, error := none }).1
      (Or.inl (by decide))).1,
   ((handleSubmit_noop_iff_guard
      { prompt := "desk", messages := [], isLoading := true, error := none }).1
      (Or.inr rfl)).1,
   ((handleSubmit_noop_iff_guard
      { prompt := "desk", messages := [], isLoading := false, error := none }).2.1
      ⟨by decide, rfl⟩).2.2⟩

/-- C4: when an accepted submit's request fails with a network failure or a non-2xx status,
the run ends with the user entry followed by an error entry carrying the fixed text, with
`error` set to that same text and `isLoading` false; a second failure of any other cause
gives the same state, so the cause reaches only the console. -/
theorem failure_gives_fixed_error (s : State) (o₁ o₂ : FetchOutcome)
    (hload : s.isLoading = false) (hprompt : trim s.prompt ≠ "")
    (h₁ : o₁.isFailure = true) (h₂ : o₂.isFailure = true) :
    handleSubmit s o₁ =
      { prompt := "",
        messages := s.messages ++
          [{ type := "user", content := JsValue.string s.prompt },
           { type := "error",
             content := JsValue.string
               "Sorry, something went wrong. Please check if the backend is running and try again." }],
        isLoading := false,
        error := some
          "Sorry, something went wrong. Please check if the backend is running and try again." } ∧
    handleSubmit s o₁ = handleSubmit s o₂ ∧
    ∀ t : State, (handleSubmitResume t o₁).state = (handleSubmitResume t o₂).state := by
  have hacc : submitRejected s = false := (submitRejected_eq_false_iff s).mpr ⟨hprompt, hload⟩
  obtain ⟨e₁, he₁⟩ := tryBlock_of_failure o₁ h₁
  obtain ⟨e₂, he₂⟩ := tryBlock_of_failure o₂ h₂
  refine ⟨?_, ?_, ?_⟩
  · rw [handleSubmit_accepted s o₁ hacc, handleSubmitResume_of_error _ o₁ e₁ he₁]
    simp [errorText]
  · rw [handleSubmit_accepted s o₁ hacc, handleSubmit_accepted s o₂ hacc,
      handleSubmitResume_of_error _ o₁ e₁ he₁, handleSubmitResume_of_error _ o₂ e₂ he₂]
  · intro t
    rw [handleSubmitResume_of_error _ o₁ e₁ he₁, handleSubmitResume_of_error _ o₂ e₂ he₂]

/-- C4 at an HTTP 500 answer and a rejected `fetch`. -/
theorem failure_gives_fixed_error_witness :
    handleSubmit { prompt := "oak desk", messages := [], isLoading := false, error := none }
        (FetchOutcome.responded
          { status := 500, statusText := "Internal Server Error",
            json := Except.ok JsValue.null }) =
      handleSubmit { prompt := "oak desk", messages := [], isLoading := false, error := none }
        (FetchOutcome.rejected ⟨"TypeError: Failed to fetch"⟩) :=
  (failure_gives_fixed_error
    { prompt := "oak desk", messages := [], isLoading := false, error := none }
    (FetchOutcome.responded
      { status := 500, statusText := "Internal Server Error", json := Except.ok JsValue.null })
    (FetchOutcome.rejected ⟨"TypeError: Failed to fetch"⟩)
    rfl (by decide) (by decide) rfl).2.1

/-- C5, as the source has it: on a success status the only body that leads to the error
entry is one `response.json()` rejects; a body that parses is stored as the content of an
AI entry whatever its shape, and no error is recorded. -/
theorem success_body_parse_decides (s : State) (r : Response)
    (hload : s.isLoading = false) (hprompt : trim s.prompt ≠ "") (hok : r.ok = true) :
    (∀ e, r.json = Except.error e →
      handleSubmit s (FetchOutcome.responded r) =
        { prompt := "",
          messages := s.messages ++
            [{ type := "user", content := JsValue.string s.prompt },
             { type := "error", content := JsValue.string errorText }],
          isLoading := false,
          error := some errorText }) ∧
    (∀ data, r.json = Except.ok data →
      handleSubmit s (FetchOutcome.responded r) =
        { prompt := "",
          messages := s.messages ++
            [{ type := "user", content := JsValue.string s.prompt },
             { type := "ai", content := data }],
          isLoading := false,
          error := none }) := by
  have hacc : submitRejected s = false := (submitRejected_eq_false_iff s).mpr ⟨hprompt, hload⟩
  constructor
  · intro e he
    have ht : tryBlock (FetchOutcome.responded r) = Except.error e := by
      simp [tryBlock, hok, he]
    rw [handleSubmit_accepted s _ hacc, handleSubmitResume_of_error _ _ e ht]
    simp
  · intro data hdata
    have ht : tryBlock (FetchOutcome.responded r) = Except.ok data := by
      simp [tryBlock, hok, hdata]
    rw [handleSubmit_accepted s _ hacc, handleSubmitResume_of_ok _ _ data ht]
    simp

/-- C5 amended, at a 200 answer whose body is not JSON. -/
theorem success_body_parse_decides_witness :
    handleSubmit { prompt := "sofa", messages := [], isLoading := false, error := none }
        (FetchOutcome.responded
          { status := 200, statusText := "OK",
            json := Except.error ⟨"SyntaxError: Unexpected token <"⟩ }) =
      { prompt := "",
        messages := [{ type := "user", content := JsValue.string "sofa" },
                     { type := "error", content := JsValue.string errorText }],
        isLoading := false,
        error := some errorText } :=
  (success_body_parse_decides
    { prompt := "sofa", messages := [], isLoading := false, error := none }
    { status := 200, statusText := "OK",
      json := Except.error ⟨"SyntaxError: Unexpected token <"⟩ }
    rfl (by decide) (by decide)).1 _ rfl

/-- C5 as stated fails: a 200 answer whose body is the empty JSON object, `null`, or an
array with an element that has no product, is stored as an AI entry; no error entry is
appended and `error` stays unset.  `ChatMessage` then throws on each of these entries. -/
theorem malformed_shape_stored_as_ai :
    (handleSubmit { prompt := "sofa", messages := [], isLoading := false, error := none }
        (FetchOutcome.responded
          { status := 200, statusText := "OK", json := Except.ok (JsValue.object []) }) =
      { prompt := "",
        messages := [{ type := "user", content := JsValue.string "sofa" },
                     { type := "ai", content := JsValue.object [] }],
        isLoading := false,
        error := none } ∧
     ∃ e, ChatMessage { type := "ai", content := JsValue.object [] } = Except.error e) ∧
    (handleSubmit { prompt := "sofa", messages := [], isLoading := false, error := none }
        (FetchOutcome.responded
          { status := 200, statusText := "OK", json := Except.ok JsValue.null }) =
      { prompt := "",
        messages := [{ type := "user", content := JsValue.string "sofa" },
                     { type := "ai", content := JsValue.null }],
        isLoading := false,
        error := none } ∧
     ∃ e, ChatMessage { type := "ai", content := JsValue.null } = Except.error e) ∧
    (handleSubmit { prompt := "sofa", messages := [], isLoading := false, error := none }
        (FetchOutcome.responded
          { status := 200, statusText := "OK",
            json := Except.ok (JsValue.array
              [JsValue.object [("generated_description", JsValue.string "x")]]) }) =
      { prompt := "",
        messages := [{ type := "user", content := JsValue.string "sofa" },
                     { type := "ai",
                       content := JsValue.array
                         [JsValue.object [("generated_description", JsValue.string "x")]] }],
        isLoading := false,
        error := none } ∧
     ∃ e, ChatMessage
        { type := "ai",
          content := JsValue.array
            [JsValue.object [("generated_description", JsValue.string "x")]] } =
        Except.error e) :=
  ⟨⟨rfl, _, rfl⟩, ⟨rfl, _, rfl⟩, ⟨rfl, _, rfl⟩⟩

/-- C7: from a state that is not loading and whose prompt `p` has a non-empty trim, the
synchronous part of `handleSubmit` clears `error`, sets `isLoading`, appends one user entry
with text `p` after the entries already there, empties the input, and issues one POST to
the recommendation endpoint whose JSON body is the object with the single property
`prompt` equal to the same `p`. -/
theorem handleSubmitSync_effects (s : State)
    (hload : s.isLoading = false) (hprompt : trim s.prompt ≠ "") :
    handleSubmitSync s =
      ({ prompt := "",
         messages := s.messages ++ [{ type := "user", content := JsValue.string s.prompt }],
         isLoading := true,
         error := none },
       some { url := "http://localhost:8000/api/recommend",
              method := "POST",
              headers := [("Content-Type", "application/json")],
              body := JsValue.object [("prompt", JsValue.string s.prompt)] }) ∧
    (handleSubmitSync s).1.messages.take s.messages.length = s.messages ∧
    (handleSubmitSync s).1.messages.length = s.messages.length + 1 := by
  have hacc : submitRejected s = false := (submitRejected_eq_false_iff s).mpr ⟨hprompt, hload⟩
  rw [handleSubmitSync_accepted s hacc]
  refine ⟨rfl, ?_, ?_⟩ <;> simp

/-- C7 at the prompt "a modern wooden chair" after one earlier exchange. -/
theorem handleSubmitSync_effects_witness :
    (handleSubmitSync
      { prompt := "a modern wooden chair",
        messages := [{ type := "user", content := JsValue.string "hi" },
                     { type := "error", content := JsValue.string errorText }],
        isLoading := false,
        error := some errorText }).1.messages.length = 2 + 1 :=
  (handleSubmitSync_effects
    { prompt := "a modern wooden chair",
      messages := [{ type := "user", content := JsValue.string "hi" },
                   { type := "error", content := JsValue.string errorText }],
      isLoading := false,
      error := some errorText } rfl (by decide)).2.2

/-! ## Facts about rendering -/

theorem getProp_recommendation_product (r : Recommendation) :
    getProp r.toJs "product" = Except.ok r.product.toJs := by
  simp [Recommendation.toJs, getProp, lookupField]

theorem getProp_recommendation_description (r : Recommendation) :
    getProp r.toJs "generated_description" =
      Except.ok (JsValue.string r.generated_description) := by
  simp [Recommendation.toJs, getProp, lookupField]

theorem getProp_product_id (p : Product) :
    getProp p.toJs "id" = Except.ok (JsValue.string p.id) := by
  simp [Product.toJs, getProp, lookupField]

theorem getProp_product_title (p : Product) :
    getProp p.toJs "title" = Except.ok (JsValue.string p.title) := by
  simp [Product.toJs, getProp, lookupField]

theorem getProp_product_category (p : Product) :
    getProp p.toJs "category" = Except.ok (JsValue.string p.category) := by
  cases hb : p.brand <;> simp [Product.toJs, getProp, lookupField, hb]

theorem getProp_product_image_url (p : Product) :
    getProp p.toJs "image_url" = Except.ok (JsValue.string p.image_url) := by
  cases hb : p.brand <;> simp [Product.toJs, getProp, lookupField, hb]

theorem getProp_product_price (p : Product) :
    getProp p.toJs "price" = Except.ok p.price.toJs := by
  cases hb : p.brand <;> simp [Product.toJs, getProp, lookupField, hb]

theorem getProp_product_brand (p : Product) :
    getProp p.toJs "brand" =
      Except.ok (match p.brand with
        | none => JsValue.undefined
        | some b => JsValue.string b) := by
  cases hb : p.brand <;> simp [Product.toJs, getProp, lookupField, hb]

theorem cardElementOf_recommendation (r : Recommendation) :
    cardElementOf r.toJs =
      Except.ok { key := JsValue.string r.product.id, recommendation := r.toJs } := by
  simp [cardElementOf, getProp_recommendation_product, getProp_product_id]

theorem arrayMap_cardElementOf (recs : List Recommendation) :
    arrayMap cardElementOf (recs.map Recommendation.toJs) =
      Except.ok (recs.map fun r =>
        { key := JsValue.string r.product.id, recommendation := r.toJs }) := by
  induction recs with
  | nil => rfl
  | cons r rest ih =>
    simp [arrayMap, cardElementOf_recommendation, ih]

theorem RecommendationCard_recommendation (r : Recommendation) :
    RecommendationCard r.toJs =
      Except.ok
        { imgSrc := JsValue.string r.product.image_url,
          imgAlt := JsValue.string r.product.title,
          title := JsValue.string r.product.title,
          brand := match r.product.brand with
            | none => BrandSlot.falsy JsValue.undefined
            | some b =>
              if b = "" then BrandSlot.falsy (JsValue.string b)
              else BrandSlot.span (JsValue.string b),
          category := JsValue.string r.product.category,
          description := JsValue.string r.generated_description,
          price := priceShown r.product.price.toJs } := by
  simp only [RecommendationCard, getProp_recommendation_product,
    getProp_recommendation_description, getProp_product_image_url, getProp_product_title,
    getProp_product_brand, getProp_product_category, getProp_product_price]
  cases hb : r.product.brand with
  | none => simp [truthy]
  | some b =>
    by_cases hbe : b = "" <;> simp [truthy, hbe]

/-- C6: when an accepted submit is answered with a success status and a body that is the
array of `N` recommendations `recs`, the run ends with the user entry followed by an AI
entry whose content is that array, element for element and in the same order, with
`isLoading` false; `ChatMessage` turns that entry into exactly `N` card elements, the
`i`-th keyed by the `i`-th product id and carrying the `i`-th recommendation. -/
theorem success_entry_keeps_recommendations (s : State) (recs : List Recommendation)
    (status : Nat) (statusText : String)
    (hload : s.isLoading = false) (hprompt : trim s.prompt ≠ "")
    (hstatus : 200 ≤ status ∧ status ≤ 299) :
    handleSubmit s (FetchOutcome.responded
        { status := status, statusText := statusText,
          json := Except.ok (JsValue.array (recs.map Recommendation.toJs)) }) =
      { prompt := "",
        messages := s.messages ++
          [{ type := "user", content := JsValue.string s.prompt },
           { type := "ai", content := JsValue.array (recs.map Recommendation.toJs) }],
        isLoading := false,
        error := none } ∧
    (recs.map Recommendation.toJs).length = recs.length ∧
    ∃ cards : List CardElement,
      ChatMessage { type := "ai", content := JsValue.array (recs.map Recommendation.toJs) } =
        Except.ok (ChatElement.cardList cards) ∧
      cards.length = recs.length ∧
      ∀ i : Nat, cards[i]? = recs[i]?.map fun (r : Recommendation) =>
        ({ key := JsValue.string r.product.id, recommendation := r.toJs } : CardElement) := by
  have hacc : submitRejected s = false := (submitRejected_eq_false_iff s).mpr ⟨hprompt, hload⟩
  refine ⟨?_, by simp, ?_⟩
  · rw [handleSubmit_accepted s _ hacc,
      handleSubmitResume_of_ok _ _ (JsValue.array (recs.map Recommendation.toJs))
        (by simp [tryBlock, Response.ok, hstatus.1, hstatus.2])]
    simp
  · refine ⟨recs.map fun (r : Recommendation) =>
      ({ key := JsValue.string r.product.id, recommendation := r.toJs } : CardElement),
      ?_, by simp, ?_⟩
    · simp [ChatMessage, arrayMap_cardElementOf]
    · intro i
      simp

/-- C6 at the scenario: the prompt "a modern wooden chair" answered with one
recommendation. -/
theorem success_entry_keeps_recommendations_witness :
    handleSubmit { initialState with prompt := "a modern wooden chair" }
        (FetchOutcome.responded
          { status := 200, statusText := "OK",
            json := Except.ok (JsValue.array [oakChair.toJs]) }) =
      { prompt := "",
        messages := [{ type := "user", content := JsValue.string "a modern wooden chair" },
                     { type := "ai", content := JsValue.array [oakChair.toJs] }],
        isLoading := false,
        error := none } :=
  (success_entry_keeps_recommendations
    { initialState with prompt := "a modern wooden chair" } [oakChair] 200 "OK"
    rfl (by decide) (by decide)).1

theorem Price.toJs_eq_string_iff (p : Price) (t : String) :
    p.toJs = JsValue.string t ↔ p = Price.str t := by
  cases p <;> simp [Price.toJs]

theorem priceShown_nan : priceShown (JsValue.string "nan") =
    JsValue.string "Price not available" := rfl

theorem priceShown_of_ne (price : JsValue) (h : price ≠ JsValue.string "nan") :
    priceShown price = price := by
  unfold priceShown strictEqString
  cases price <;> simp_all

/-- C8, as the source has it: the card shows "Price not available" in place of the price
"nan", and any other price, a number or a string, as it is; so the text shown is
"Price not available" exactly when the price is the string "nan" or is that text itself. -/
theorem price_shown (r : Recommendation) :
    ∃ v : CardView, RecommendationCard r.toJs = Except.ok v ∧
      (r.product.price = Price.str "nan" → v.price = JsValue.string "Price not available") ∧
      (r.product.price ≠ Price.str "nan" → v.price = r.product.price.toJs) ∧
      (v.price = JsValue.string "Price not available" ↔
        (r.product.price = Price.str "nan" ∨
         r.product.price = Price.str "Price not available")) := by
  refine ⟨_, RecommendationCard_recommendation r, ?_, ?_, ?_⟩
  · intro h
    simp [h, Price.toJs, priceShown_nan]
  · intro h
    exact priceShown_of_ne _ (fun hc => h ((Price.toJs_eq_string_iff _ _).mp hc))
  · by_cases h : r.product.price = Price.str "nan"
    · simp [h, Price.toJs, priceShown_nan]
    · have hne : r.product.price.toJs ≠ JsValue.string "nan" :=
        fun hc => h ((Price.toJs_eq_string_iff _ _).mp hc)
      simp [priceShown_of_ne _ hne, Price.toJs_eq_string_iff, h]

/-- C8 as stated fails: the price "Price not available" is not the string "nan", yet the
card shows "Price not available". -/
theorem placeholder_shown_for_other_price :
    unpricedLamp.product.price ≠ Price.str "nan" ∧
    ∃ v : CardView, RecommendationCard unpricedLamp.toJs = Except.ok v ∧
      v.price = JsValue.string "Price not available" :=
  ⟨by decide, _, rfl, rfl⟩

/-! ## Facts about the chart data -/

theorem topBrandsData_eq (data : AnalyticsData) :
    topBrandsData data = data.productsByBrand.take 10 ∧
    (topBrandsData data).length = min 10 data.productsByBrand.length := by
  simp [topBrandsData, sliceFromStart]

theorem topCategoriesData_eq (data : AnalyticsData) :
    topCategoriesData data =
      (data.avgPriceByCategory.filter fun d => d.price.gtZero).take 10 ∧
    (topCategoriesData data).length ≤ 10 := by
  simp [topCategoriesData, sliceFromStart]

/-- C9 at an aggregate with eleven materials: the brands and categories handed to the bar
charts are cut to ten, the pie chart is handed all eleven materials. -/
theorem materialPieData_has_eleven :
    (topBrandsData elevenOfEach).length = 10 ∧
    (topCategoriesData elevenOfEach).length = 10 ∧
    elevenOfEach.materialDistribution.length = 11 ∧
    (materialPieData elevenOfEach).length = 11 := by
  decide

/-! ## The invariant of the transition system -/

theorem pairedLog_append_user :
    ∀ (ms : List Message) (u : Message),
      pairedLog ms false = true → u.isUser = true → pairedLog (ms ++ [u]) true = true
  | [], u, _, hu => by simp [pairedLog, hu]
  | [_], _, h, _ => by simp [pairedLog] at h
  | a :: b :: rest, u, h, hu => by
    simp only [pairedLog, Bool.and_eq_true, List.cons_append] at h ⊢
    exact ⟨h.1, pairedLog_append_user rest u h.2 hu⟩

theorem pairedLog_append_result :
    ∀ (ms : List Message) (r : Message),
      pairedLog ms true = true → r.isResult = true → pairedLog (ms ++ [r]) false = true
  | [], _, h, _ => by simp [pairedLog] at h
  | [a], r, h, hr => by
    simp only [pairedLog, Bool.and_eq_true] at h
    simp [pairedLog, h.1, hr]
  | a :: b :: rest, r, h, hr => by
    simp only [pairedLog, Bool.and_eq_true, List.cons_append] at h ⊢
    exact ⟨h.1, pairedLog_append_result rest r h.2 hr⟩

theorem userTextsNonBlank_append (ms : List Message) (m : Message)
    (h : userTextsNonBlank ms)
    (hm : m.isUser = true → ∃ t : String, m.content = JsValue.string t ∧ trim t ≠ "") :
    userTextsNonBlank (ms ++ [m]) := by
  intro x hx hux
  rcases List.mem_append.mp hx with hx | hx
  · exact h x hx hux
  · rw [List.mem_singleton] at hx
    subst hx
    exact hm hux

theorem consistent_initial : Consistent initialSystem where
  inFlight_count := rfl
  paired := rfl
  texts := by intro m hm; simp [initialSystem, initialState] at hm
  banner := by simp [errorMatchesLog, initialSystem, initialState]

theorem handleSubmitFrom_rendered (s : State) :
    handleSubmitFrom s.rendered s = handleSubmitSync s := rfl

theorem consistent_submit (sys : System) (h : Consistent sys) :
    Consistent
      { ui := (handleSubmitSync sys.ui).1,
        view := sys.view,
        inFlight := sys.inFlight ++ (handleSubmitSync sys.ui).2.toList } := by
  cases hrej : submitRejected sys.ui with
  | true =>
    rw [handleSubmitSync_rejected _ hrej]
    exact ⟨by simpa using h.inFlight_count, h.paired, h.texts, h.banner⟩
  | false =>
    obtain ⟨hprompt, hload⟩ := (submitRejected_eq_false_iff _).mp hrej
    rw [handleSubmitSync_accepted _ hrej]
    have hcount := h.inFlight_count
    have hpaired := h.paired
    rw [hload] at hcount hpaired
    refine ⟨?_, ?_, ?_, ?_⟩
    · simpa using hcount
    · exact pairedLog_append_user _ _ hpaired rfl
    · exact userTextsNonBlank_append _ _ h.texts (fun _ => ⟨_, rfl, hprompt⟩)
    · simp [errorMatchesLog]

theorem consistent_edit (sys : System) (value : String) (h : Consistent sys) :
    Consistent
      { ui := { sys.ui with prompt := value }, view := sys.view, inFlight := sys.inFlight } :=
  ⟨h.inFlight_count, h.paired, h.texts, h.banner⟩

theorem consistent_render (sys : System) (h : Consistent sys) :
    Consistent { ui := sys.ui, view := sys.ui.rendered, inFlight := sys.inFlight } :=
  ⟨h.inFlight_count, h.paired, h.texts, h.banner⟩

theorem loading_of_inFlight (sys : System) (h : Consistent sys) (i : Nat)
    (hi : i < sys.inFlight.length) :
    sys.ui.isLoading = true ∧ sys.inFlight.length = 1 := by
  have hcount := h.inFlight_count
  cases hl : sys.ui.isLoading with
  | true => simpa [hl] using hcount
  | false =>
    rw [hl] at hcount
    simp at hcount
    simp [hcount] at hi

theorem consistent_settle (sys : System) (i : Nat) (o : FetchOutcome) (h : Consistent sys)
    (hi : i < sys.inFlight.length) :
    Consistent
      { ui := (handleSubmitResume sys.ui o).state,
        view := sys.view,
        inFlight := sys.inFlight.eraseIdx i } := by
  obtain ⟨hload, hone⟩ := loading_of_inFlight sys h i hi
  have hpaired := h.paired
  rw [hload] at hpaired
  have herr : sys.ui.error = none := by
    by_contra hne
    have := (h.banner.1.mp hne).1
    rw [hload] at this
    exact Bool.noConfusion this
  have hlen : (sys.inFlight.eraseIdx i).length = 0 := by
    rw [List.length_eraseIdx, if_pos hi, hone]
  cases ht : tryBlock o with
  | ok data =>
    rw [handleSubmitResume_of_ok _ _ data ht]
    refine ⟨by simpa using hlen, ?_, ?_, ?_⟩
    · exact pairedLog_append_result _ _ hpaired (by simp [Message.isResult])
    · exact userTextsNonBlank_append _ _ h.texts
        (fun hu => by simp [Message.isUser] at hu)
    · simp [errorMatchesLog, herr, Message.isError]
  | error err =>
    rw [handleSubmitResume_of_error _ _ err ht]
    refine ⟨by simpa using hlen, ?_, ?_, ?_⟩
    · exact pairedLog_append_result _ _ hpaired (by simp [Message.isResult, Message.isError])
    · exact userTextsNonBlank_append _ _ h.texts
        (fun hu => by simp [Message.isUser] at hu)
    · simp [errorMatchesLog, Message.isError]

theorem consistent_step (sys sys' : System) (e : Event) (h : Consistent sys)
    (hfresh : e = Event.submit → sys.view = sys.ui.rendered)
    (hstep : step sys e = some sys') : Consistent sys' := by
  cases e with
  | submit =>
    simp only [step, Option.some.injEq] at hstep
    subst hstep
    rw [hfresh rfl, handleSubmitFrom_rendered]
    exact consistent_submit { sys with view := sys.ui.rendered } (consistent_render sys h)
  | edit value =>
    simp only [step, Option.some.injEq] at hstep
    subst hstep
    exact consistent_edit sys value h
  | settle i o =>
    simp only [step] at hstep
    split at hstep
    · rename_i hi
      simp only [Option.some.injEq] at hstep
      subst hstep
      exact consistent_settle sys i o h hi
    · exact Option.noConfusion hstep
  | render =>
    simp only [step, Option.some.injEq] at hstep
    subst hstep
    exact consistent_render sys h

theorem view_after_render (sys sys' : System) (hstep : step sys Event.render = some sys') :
    sys'.view = sys'.ui.rendered := by
  simp only [step, Option.some.injEq] at hstep
  subst hstep
  rfl

theorem consistent_run (evs : List Event) :
    ∀ (justRendered : Bool) (sys sys' : System), Consistent sys →
      (justRendered = true → sys.view = sys.ui.rendered) →
      submitsFollowRender justRendered evs = true →
      run sys evs = some sys' → Consistent sys' := by
  induction evs with
  | nil =>
    intro b sys sys' h _ _ hrun
    simp only [run, Option.some.injEq] at hrun
    subst hrun
    exact h
  | cons e rest ih =>
    intro b sys sys' h hview hfollow hrun
    simp only [run] at hrun
    cases hstep : step sys e with
    | none => simp [hstep] at hrun
    | some mid =>
      simp only [hstep] at hrun
      cases e with
      | submit =>
        simp only [submitsFollowRender, Bool.and_eq_true] at hfollow
        exact ih false mid sys'
          (consistent_step sys mid Event.submit h (fun _ => hview hfollow.1) hstep)
          (fun hb => Bool.noConfusion hb) hfollow.2 hrun
      | edit value =>
        simp only [submitsFollowRender] at hfollow
        exact ih false mid sys'
          (consistent_step sys mid (Event.edit value) h (fun he => Event.noConfusion he) hstep)
          (fun hb => Bool.noConfusion hb) hfollow hrun
      | settle i o =>
        simp only [submitsFollowRender] at hfollow
        exact ih false mid sys'
          (consistent_step sys mid (Event.settle i o) h (fun he => Event.noConfusion he) hstep)
          (fun hb => Bool.noConfusion hb) hfollow hrun
      | render =>
        simp only [submitsFollowRender] at hfollow
        exact ih true mid sys'
          (consistent_step sys mid Event.render h (fun he => Event.noConfusion he) hstep)
          (fun _ => view_after_render sys mid hstep) hfollow hrun

theorem pairedLog_pairs :
    ∀ (ms : List Message) (trailing : Bool), pairedLog ms trailing = true →
      ∃ (pairs : List (Message × Message)) (tail : List Message),
        ms = logOfPairs pairs ++ tail ∧
        (∀ p ∈ pairs, p.1.isUser = true ∧ p.2.isResult = true) ∧
        (trailing = true → ∃ u : Message, u.isUser = true ∧ tail = [u]) ∧
        (trailing = false → tail = [])
  | [], trailing, h => by
    refine ⟨[], [], rfl, by simp, ?_, fun _ => rfl⟩
    intro ht
    simp [pairedLog, ht] at h
  | [u], trailing, h => by
    simp only [pairedLog, Bool.and_eq_true] at h
    refine ⟨[], [u], rfl, by simp, fun _ => ⟨u, h.1, rfl⟩, ?_⟩
    intro ht
    simp [ht] at h
  | u :: r :: rest, trailing, h => by
    simp only [pairedLog, Bool.and_eq_true] at h
    obtain ⟨pairs, tail, hms, hpairs, ht, hf⟩ := pairedLog_pairs rest trailing h.2
    refine ⟨(u, r) :: pairs, tail, by simp [logOfPairs, hms], ?_, ht, hf⟩
    intro p hp
    rcases List.mem_cons.mp hp with hp | hp
    · subst hp
      exact ⟨h.1.1, h.1.2⟩
    · exact hpairs p hp

/-- As long as every submit comes right after a render, at most one request is outstanding
and `isLoading` is true exactly when one is; when an outstanding request settles, with any
outcome, `isLoading` becomes false, no request is left outstanding, and exactly one entry,
an AI or an error entry, is appended to the log. -/
theorem rendered_submits_one_in_flight (evs : List Event) (sys : System)
    (hfollow : submitsFollowRender true evs = true)
    (hrun : run initialSystem evs = some sys) :
    sys.inFlight.length ≤ 1 ∧
    (sys.ui.isLoading = true ↔ sys.inFlight.length = 1) ∧
    (sys.ui.isLoading = false ↔ sys.inFlight = []) ∧
    ∀ (i : Nat) (o : FetchOutcome) (sys' : System),
      step sys (Event.settle i o) = some sys' →
        sys'.ui.isLoading = false ∧ sys'.inFlight = [] ∧
        ∃ m : Message, m.isResult = true ∧ sys'.ui.messages = sys.ui.messages ++ [m] := by
  have h := consistent_run evs true initialSystem sys consistent_initial (fun _ => rfl)
    hfollow hrun
  have hcount := h.inFlight_count
  refine ⟨?_, ?_, ?_, ?_⟩
  · split at hcount <;> omega
  · cases hl : sys.ui.isLoading <;> simp [hl] at hcount ⊢ <;> simp [hcount]
  · cases hl : sys.ui.isLoading <;> simp [hl] at hcount ⊢
    · exact hcount
    · intro hnil
      simp [hnil] at hcount
  · intro i o sys' hstep
    simp only [step] at hstep
    split at hstep
    · rename_i hi
      simp only [Option.some.injEq] at hstep
      subst hstep
      obtain ⟨_, hone⟩ := loading_of_inFlight sys h i hi
      obtain ⟨m, hm, hmsgs, hl, _⟩ := handleSubmitResume_appends sys.ui o
      refine ⟨hl, ?_, m, hm, hmsgs⟩
      apply List.eq_nil_of_length_eq_zero
      rw [List.length_eraseIdx, if_pos hi, hone]
    · exact Option.noConfusion hstep

/-- As long as every submit comes right after a render, the log is a sequence of (user
entry, result entry) pairs followed by one more user entry exactly when `isLoading` is
true; every user entry holds a text whose trim is not empty; and `error` is set exactly
when `isLoading` is false and the last entry is an error entry, in which case it equals
that entry's text. -/
theorem rendered_submits_log_is_paired (evs : List Event) (sys : System)
    (hfollow : submitsFollowRender true evs = true)
    (hrun : run initialSystem evs = some sys) :
    pairedLog sys.ui.messages sys.ui.isLoading = true ∧
    (∃ (pairs : List (Message × Message)) (tail : List Message),
      sys.ui.messages = logOfPairs pairs ++ tail ∧
      (∀ p ∈ pairs, p.1.isUser = true ∧ p.2.isResult = true) ∧
      (sys.ui.isLoading = true → ∃ u : Message, u.isUser = true ∧ tail = [u]) ∧
      (sys.ui.isLoading = false → tail = [])) ∧
    (∀ m ∈ sys.ui.messages, m.isUser = true →
      ∃ t : String, m.content = JsValue.string t ∧ trim t ≠ "") ∧
    (sys.ui.error ≠ none ↔
      (sys.ui.isLoading = false ∧
       ∃ m, sys.ui.messages.getLast? = some m ∧ m.isError = true)) ∧
    (∀ e, sys.ui.error = some e →
      ∃ m, sys.ui.messages.getLast? = some m ∧ m.isError = true ∧
        m.content = JsValue.string e) := by
  have h := consistent_run evs true initialSystem sys consistent_initial (fun _ => rfl)
    hfollow hrun
  exact ⟨h.paired, pairedLog_pairs _ _ h.paired, h.texts, h.banner.1, h.banner.2⟩

/-- The two facts above hold of a run with a render before each submit: one failed
exchange, then a second prompt that is still loading. -/
theorem rendered_submits_example :
    (([{ url := API_URL, method := "POST",
         headers := [("Content-Type", "application/json")],
         body := JsValue.object [("prompt", JsValue.string " oak desk ")] }] :
        List Request).length ≤ 1) ∧
    pairedLog
      [{ type := "user", content := JsValue.string "chair" },
       { type := "error", content := JsValue.string errorText },
       { type := "user", content := JsValue.string " oak desk " }] true = true :=
  ⟨(rendered_submits_one_in_flight
    [Event.edit "chair", Event.render, Event.submit, Event.render, Event.submit,
     Event.settle 0 (FetchOutcome.responded
       { status := 503, statusText := "Service Unavailable", json := Except.ok JsValue.null }),
     Event.edit " oak desk ", Event.render, Event.submit]
    { ui :=
        { prompt := "",
          messages := [{ type := "user", content := JsValue.string "chair" },
                       { type := "error", content := JsValue.string errorText },
                       { type := "user", content := JsValue.string " oak desk " }],
          isLoading := true,
          error := none },
      view := { prompt := " oak desk ", isLoading := false },
      inFlight :=
        [{ url := API_URL, method := "POST",
           headers := [("Content-Type", "application/json")],
           body := JsValue.object [("prompt", JsValue.string " oak desk ")] }] }
    rfl rfl).1,
   (rendered_submits_log_is_paired
    [Event.edit "chair", Event.render, Event.submit, Event.render, Event.submit,
     Event.settle 0 (FetchOutcome.responded
       { status := 503, statusText := "Service Unavailable", json := Except.ok JsValue.null }),
     Event.edit " oak desk ", Event.render, Event.submit]
    { ui :=
        { prompt := "",
          messages := [{ type := "user", content := JsValue.string "chair" },
                       { type := "error", content := JsValue.string errorText },
                       { type := "user", content := JsValue.string " oak desk " }],
          isLoading := true,
          error := none },
      view := { prompt := " oak desk ", isLoading := false },
      inFlight :=
        [{ url := API_URL, method := "POST",
           headers := [("Content-Type", "application/json")],
           body := JsValue.object [("prompt", JsValue.string " oak desk ")] }] }
    rfl rfl).1⟩

/-- C3 fails on the source when the form is submitted twice before the component renders
again.  Both calls run the handler of the same render, whose `isLoading` is false, so both
pass the guard and two requests are outstanding; once the first of them has settled,
`isLoading` is false while the other is still outstanding. -/
theorem stale_submit_two_in_flight :
    (∃ sys : System, run initialSystem doubleSubmit = some sys ∧
      sys.inFlight.length = 2 ∧ sys.ui.isLoading = true) ∧
    (∃ sys : System,
      run initialSystem
        (doubleSubmit ++
          [Event.settle 0 (FetchOutcome.rejected ⟨"TypeError: Failed to fetch"⟩)]) =
        some sys ∧
      sys.inFlight.length = 1 ∧ sys.ui.isLoading = false) :=
  ⟨⟨_, rfl, rfl, rfl⟩, ⟨_, rfl, rfl, rfl⟩⟩

/-- C10 fails on the source when the form is submitted twice before the component renders
again.  The log then holds two user entries in a row; and once the first request has
failed and the second has been answered, `error` is still set although the last entry is
an AI entry. -/
theorem stale_submit_breaks_pairing :
    (∃ sys : System, run initialSystem doubleSubmit = some sys ∧
      sys.ui.messages =
        [{ type := "user", content := JsValue.string "chair" },
         { type := "user", content := JsValue.string "chair" }] ∧
      sys.ui.isLoading = true ∧
      pairedLog sys.ui.messages sys.ui.isLoading = false) ∧
    (∃ sys : System, run initialSystem doubleSubmitSettled = some sys ∧
      sys.ui.messages =
        [{ type := "user", content := JsValue.string "chair" },
         { type := "user", content := JsValue.string "chair" },
         { type := "error", content := JsValue.string errorText },
         { type := "ai", content := JsValue.array [] }] ∧
      sys.ui.isLoading = false ∧
      sys.ui.error = some errorText ∧
      pairedLog sys.ui.messages sys.ui.isLoading = false) :=
  ⟨⟨_, rfl, rfl, rfl, rfl⟩, ⟨_, rfl, rfl, rfl, rfl, rfl⟩⟩

end AdvisorBot
